import Mathlib

/-!
Verification of the EventPro research orchestration & caching engine.

Shallow embedding of the repository's core:
  * `src/bot.py` — JSON extraction, lead-tier classification, the 3-phase
    enrichment pipeline (`research_nonprofit`), and the batch orchestrator
    (`process_batch` / `run`);
  * `src/db.py` — the research result cache (`_cache_key`,
    `_parse_event_date`, `_compute_expiry`, `cache_get`, `cache_put`).

Dictionaries are modelled as association lists of JSON values with
Python's "last assignment wins" lookup; machine time is modelled as
integer seconds since the Unix epoch (the code works in UTC throughout);
fallible calls are modelled with `Except`/`Option`.
-/

set_option maxHeartbeats 1000000

namespace EventPro

/-- JSON values as produced by `json.loads` on the research responses.
(Numbers are modelled as rationals; the non-standard `NaN`/`Infinity`
literals Python's parser also accepts are outside the model.) -/
inductive Json where
  | null : Json
  | bool (b : Bool) : Json
  | num (q : ℚ) : Json
  | str (s : String) : Json
  | arr (elems : List Json) : Json
  | obj (members : List (String × Json)) : Json
deriving Repr, Inhabited

mutual

/-- Boolean equality on JSON values. -/
def Json.beq : Json → Json → Bool
  | .null, .null => true
  | .bool a, .bool b => a == b
  | .num a, .num b => a == b
  | .str a, .str b => a == b
  | .arr as, .arr bs => Json.beqArr as bs
  | .obj as, .obj bs => Json.beqObj as bs
  | _, _ => false

/-- Boolean equality on JSON arrays. -/
def Json.beqArr : List Json → List Json → Bool
  | [], [] => true
  | a :: as, b :: bs => Json.beq a b && Json.beqArr as bs
  | _, _ => false

/-- Boolean equality on JSON object member lists. -/
def Json.beqObj : List (String × Json) → List (String × Json) → Bool
  | [], [] => true
  | (k, v) :: as, (k', v') :: bs => k == k' && Json.beq v v' && Json.beqObj as bs
  | _, _ => false

end

mutual

theorem Json.beq_refl : ∀ a : Json, Json.beq a a = true
  | .null => rfl
  | .bool b => by simp [Json.beq]
  | .num q => by simp [Json.beq]
  | .str s => by simp [Json.beq]
  | .arr as => by simp [Json.beq, Json.beqArr_refl as]
  | .obj as => by simp [Json.beq, Json.beqObj_refl as]

theorem Json.beqArr_refl : ∀ as : List Json, Json.beqArr as as = true
  | [] => rfl
  | a :: as => by simp [Json.beqArr, Json.beq_refl a, Json.beqArr_refl as]

theorem Json.beqObj_refl : ∀ as : List (String × Json), Json.beqObj as as = true
  | [] => rfl
  | (k, v) :: as => by simp [Json.beqObj, Json.beq_refl v, Json.beqObj_refl as]

end

mutual

theorem Json.eq_of_beq : ∀ {a b : Json}, Json.beq a b = true → a = b
  | .null, .null, _ => rfl
  | .bool a, .bool b, h => by simp [Json.beq] at h; simp [h]
  | .num a, .num b, h => by simp [Json.beq] at h; simp [h]
  | .str a, .str b, h => by simp [Json.beq] at h; simp [h]
  | .arr as, .arr bs, h => by
      simp only [Json.beq] at h; exact congrArg Json.arr (Json.eqArr_of_beq h)
  | .obj as, .obj bs, h => by
      simp only [Json.beq] at h; exact congrArg Json.obj (Json.eqObj_of_beq h)
  | .null, .bool _, h => by simp [Json.beq] at h
  | .null, .num _, h => by simp [Json.beq] at h
  | .null, .str _, h => by simp [Json.beq] at h
  | .null, .arr _, h => by simp [Json.beq] at h
  | .null, .obj _, h => by simp [Json.beq] at h
  | .bool _, .null, h => by simp [Json.beq] at h
  | .bool _, .num _, h => by simp [Json.beq] at h
  | .bool _, .str _, h => by simp [Json.beq] at h
  | .bool _, .arr _, h => by simp [Json.beq] at h
  | .bool _, .obj _, h => by simp [Json.beq] at h
  | .num _, .null, h => by simp [Json.beq] at h
  | .num _, .bool _, h => by simp [Json.beq] at h
  | .num _, .str _, h => by simp [Json.beq] at h
  | .num _, .arr _, h => by simp [Json.beq] at h
  | .num _, .obj _, h => by simp [Json.beq] at h
  | .str _, .null, h => by simp [Json.beq] at h
  | .str _, .bool _, h => by simp [Json.beq] at h
  | .str _, .num _, h => by simp [Json.beq] at h
  | .str _, .arr _, h => by simp [Json.beq] at h
  | .str _, .obj _, h => by simp [Json.beq] at h
  | .arr _, .null, h => by simp [Json.beq] at h
  | .arr _, .bool _, h => by simp [Json.beq] at h
  | .arr _, .num _, h => by simp [Json.beq] at h
  | .arr _, .str _, h => by simp [Json.beq] at h
  | .arr _, .obj _, h => by simp [Json.beq] at h
  | .obj _, .null, h => by simp [Json.beq] at h
  | .obj _, .bool _, h => by simp [Json.beq] at h
  | .obj _, .num _, h => by simp [Json.beq] at h
  | .obj _, .str _, h => by simp [Json.beq] at h
  | .obj _, .arr _, h => by simp [Json.beq] at h

theorem Json.eqArr_of_beq : ∀ {as bs : List Json}, Json.beqArr as bs = true → as = bs
  | [], [], _ => rfl
  | a :: as, b :: bs, h => by
      simp only [Json.beqArr, Bool.and_eq_true] at h
      rw [Json.eq_of_beq h.1, Json.eqArr_of_beq h.2]
  | [], _ :: _, h => by simp [Json.beqArr] at h
  | _ :: _, [], h => by simp [Json.beqArr] at h

theorem Json.eqObj_of_beq : ∀ {as bs : List (String × Json)}, Json.beqObj as bs = true → as = bs
  | [], [], _ => rfl
  | (k, v) :: as, (k', v') :: bs, h => by
      simp only [Json.beqObj, Bool.and_eq_true, beq_iff_eq] at h
      rw [h.1.1, Json.eq_of_beq h.1.2, Json.eqObj_of_beq h.2]
  | [], _ :: _, h => by simp [Json.beqObj] at h
  | _ :: _, [], h => by simp [Json.beqObj] at h

end

instance : DecidableEq Json := fun a b =>
  match h : Json.beq a b with
  | true => isTrue (Json.eq_of_beq h)
  | false => isFalse (fun he => by subst he; rw [Json.beq_refl] at h; cases h)

/-- Python truthiness of a JSON value (`if x:`). -/
def pyTruthy : Json → Bool
  | .null => false
  | .bool b => b
  | .num q => q != 0
  | .str s => s != ""
  | .arr l => !l.isEmpty
  | .obj l => !l.isEmpty

/-- A Python dict holding a decoded JSON object, as the pipeline passes
records around.  Represented as an association list where a later binding
for the same key shadows an earlier one (Python assignment semantics). -/
abbrev JRec := List (String × Json)

/-- Dict lookup: the value of the LAST binding of `k` (Python dicts keep
the most recent assignment). -/
def jlookup : JRec → String → Option Json
  | [], _ => none
  | (k', v) :: rest, k =>
      match jlookup rest k with
      | some w => some w
      | none => if k' = k then some v else none

/-- `d.get(k, default)`. -/
def dget (r : JRec) (k : String) (default : Json) : Json :=
  (jlookup r k).getD default

/-- View a JSON value as the string the Python code reads at a
string-typed key.  A non-string value at such a key makes the Python
raise (`.strip()` on a non-str); theorems that quantify over records
therefore restrict to well-typed records, and this total function is only
relied on at string values. -/
def asStr : Json → String
  | .str s => s
  | _ => ""

/-- `d.get(k, "")` read as a string. -/
def dgetStr (r : JRec) (k : String) : String :=
  asStr (dget r k (.str ""))

/-- View a JSON value as the number the Python code compares at a
numeric key (same caveat as `asStr`). -/
def asNum : Json → ℚ
  | .num q => q
  | _ => 0

/-- Dict assignment `d[k] = v`: appends a binding that shadows earlier
ones under `jlookup`. -/
def jset (r : JRec) (k : String) (v : Json) : JRec :=
  r ++ [(k, v)]

/-- The whitespace class of Python's `str.strip()` (ASCII part). -/
def isPyWs (c : Char) : Bool :=
  c == ' ' || c == '\t' || c == '\n' || c == '\r' || c == '\x0b' || c == '\x0c'

/-- Drop the longest suffix whose characters satisfy `p`. -/
def dropTrail (p : Char → Bool) (cs : List Char) : List Char :=
  (cs.reverse.dropWhile p).reverse

/-- `str.strip()` on a character list. -/
def pyStripL (cs : List Char) : List Char :=
  dropTrail isPyWs (cs.dropWhile isPyWs)

/-- `str.strip()`. -/
def pyStrip (s : String) : String :=
  String.mk (pyStripL s.data)

/-- Does the second list start with the first? -/
def startsWithL : List Char → List Char → Bool
  | [], _ => true
  | _ :: _, [] => false
  | p :: ps, c :: cs => p == c && startsWithL ps cs

/-- `s.startswith(pre)` (kernel-computable `String.startsWith`). -/
def strStarts (s pre : String) : Bool :=
  startsWithL pre.data s.data

/-- `str.lower()` (ASCII, kernel-computable `String.toLower`). -/
def pyLower (s : String) : String :=
  String.mk (s.data.map Char.toLower)

/-! ### Lead classification (`src/bot.py` lines 274–328) -/

/-- `_is_valid_email`: the regex `^[^@\s]+@[^@\s]+\.[^@\s]+$` applied to
`email.strip()` — exactly one `@`, a nonempty whitespace-free local part,
and a domain part containing a `.` with at least one character on each
side (the character classes allow further dots anywhere). -/
def is_valid_email (email : String) : Bool :=
  let cs := (pyStrip email).data
  if cs.count '@' = 1 then
    let p0 := cs.takeWhile (fun c => c ≠ '@')
    let p1 := (cs.dropWhile (fun c => c ≠ '@')).drop 1
    !p0.isEmpty && p0.all (fun c => !isPyWs c) && p1.all (fun c => !isPyWs c)
      && ((p1.drop 1).dropLast.contains '.')
  else false

/-- `_has_valid_url`: `event_url` starts with `http://` or `https://`
after stripping. -/
def has_valid_url (result : JRec) : Bool :=
  let url := pyStrip (dgetStr result "event_url")
  strStarts url "http://" || strStarts url "https://"

/-- Module constant `DOWNGRADE_GENERIC_EMAILS = False` ("toggle in
settings"). -/
def DOWNGRADE_GENERIC_EMAILS : Bool := false

/-- Module constant `GENERIC_PREFIXES`. -/
def GENERIC_EMAIL_STARTS : List String := ["info@", "contact@", "admin@", "support@"]

/-- `classify_lead_tier(result) -> (tier_name, price_cents)`, transcribed
from `src/bot.py` lines 291–328 including the (dead, flag disabled)
generic-email downgrade block. -/
def classify_lead_tier (result : JRec) : String × Nat :=
  let has_title := !(pyStrip (dgetStr result "event_title")).isEmpty
  let has_date := !(pyStrip (dgetStr result "event_date")).isEmpty
  let has_url := has_valid_url result
  let has_auction := !(pyStrip (dgetStr result "auction_type")).isEmpty
  let has_name := !(pyStrip (dgetStr result "contact_name")).isEmpty
  let has_email := is_valid_email (dgetStr result "contact_email")
  if !has_title || !has_date || !has_url then ("not_billable", 0)
  else
    let tp : String × Nat :=
      if has_title && has_date && has_url && has_auction && has_name && has_email then
        ("full", 150)
      else if has_title && has_date && has_url && has_auction && has_email then
        ("partial", 125)
      else if has_title && has_date && has_url && has_email then
        ("semi", 100)
      else if has_title && has_date && has_url then
        ("bare", 75)
      else ("not_billable", 0)
    if DOWNGRADE_GENERIC_EMAILS && has_email then
      let email_lower := pyLower (dgetStr result "contact_email")
      if GENERIC_EMAIL_STARTS.any (fun p => strStarts email_lower p) then
        let new_tier :=
          match tp.1 with
          | "full" => "partial"
          | "partial" => "semi"
          | "semi" => "bare"
          | "bare" => "bare"
          | t => t
        if new_tier ≠ tp.1 then
          (new_tier,
            match new_tier with
            | "full" => 150
            | "partial" => 125
            | "semi" => 100
            | "bare" => 75
            | "not_billable" => 0
            | _ => 0)
        else tp
      else tp
    else tp

/-- `_missing_billable_fields`: billing-critical fields first, then
completeness fields, in source order. -/
def missing_billable_fields (result : JRec) : List String :=
  (if !has_valid_url result then ["event_url"] else [])
    ++ (if !is_valid_email (dgetStr result "contact_email") then ["contact_email"] else [])
    ++ (if (pyStrip (dgetStr result "event_date")).isEmpty then ["event_date"] else [])
    ++ (if (pyStrip (dgetStr result "auction_type")).isEmpty then ["auction_type"] else [])
    ++ (if (pyStrip (dgetStr result "contact_role")).isEmpty then ["contact_role"] else [])
    ++ (if (pyStrip (dgetStr result "organization_address")).isEmpty then ["organization_address"] else [])
    ++ (if (pyStrip (dgetStr result "organization_phone_maps")).isEmpty then ["organization_phone_maps"] else [])

/-- `CSV_COLUMNS` from `src/bot.py`. -/
def CSV_COLUMNS : List String :=
  ["nonprofit_name", "event_title", "evidence_date", "auction_type", "event_date",
   "event_url", "confidence_score", "evidence_auction", "contact_name", "contact_email",
   "contact_role", "organization_address", "organization_phone_maps",
   "contact_source_url", "event_summary"]

/-- `_error_result(nonprofit, error, raw)`: the standardized error record
(all columns empty, `status="uncertain"`, a human-readable summary).
`nowIso` stands for `datetime.now(timezone.utc).isoformat()`. -/
def error_result (nonprofit error raw nowIso : String) : JRec :=
  let base : JRec := CSV_COLUMNS.map (fun c => (c, Json.str ""))
  let r := jset base "nonprofit_name" (.str nonprofit)
  let r := jset r "confidence_score" (.num 0)
  let r := jset r "status" (.str "uncertain")
  let r := jset r "event_summary" (.str ("Error during research: " ++ error))
  let r := jset r "_processed_at" (.str nowIso)
  if raw ≠ "" then jset r "_raw_response" (.str raw) else r

/-- `_quick_scan_to_full(scan, nonprofit)`: convert a quick-scan result
into the full 16-column record (raw `.get` copies, no validation). -/
def quick_scan_to_full (scan : JRec) (nonprofit : String) : JRec :=
  let r : JRec := CSV_COLUMNS.map (fun c => (c, Json.str ""))
  let r := jset r "nonprofit_name" (dget scan "nonprofit_name" (.str nonprofit))
  let r := jset r "event_title" (dget scan "event_title" (.str ""))
  let r := jset r "event_date" (dget scan "event_date" (.str ""))
  let r := jset r "event_url" (dget scan "event_url" (.str ""))
  let r := jset r "auction_type" (dget scan "auction_type" (.str ""))
  let r := jset r "evidence_date" (dget scan "evidence_date" (.str ""))
  let r := jset r "contact_name" (dget scan "contact_name" (.str ""))
  let r := jset r "contact_email" (dget scan "contact_email" (.str ""))
  let r := jset r "contact_role" (dget scan "contact_role" (.str ""))
  let r := jset r "organization_address" (dget scan "organization_address" (.str ""))
  let r := jset r "organization_phone_maps" (dget scan "organization_phone_maps" (.str ""))
  let r := jset r "contact_source_url" (dget scan "contact_source_url" (.str ""))
  let r := jset r "confidence_score" (dget scan "confidence" (.num 0))
  let r := jset r "evidence_auction" (dget scan "evidence_auction" (.str ""))
  let r := jset r "event_summary" (dget scan "notes" (.str ""))
  jset r "status" (.str (if pyTruthy (dget scan "has_event" .null) then "found" else "not_found"))

/-! ### Result cache (`src/db.py` lines 1326–1449) -/

/-- `_cache_key`: trim and lower-case. -/
def cache_key (nonprofit : String) : String :=
  pyLower (pyStrip nonprofit)

/-- Gregorian leap year. -/
def isLeapYear (y : Nat) : Bool :=
  (y % 4 == 0 && y % 100 != 0) || y % 400 == 0

/-- Days in a month of the proleptic Gregorian calendar (0 for an invalid
month number, matching `datetime`'s rejection of such dates). -/
def daysInMonth (y m : Nat) : Nat :=
  if m = 1 ∨ m = 3 ∨ m = 5 ∨ m = 7 ∨ m = 8 ∨ m = 10 ∨ m = 12 then 31
  else if m = 4 ∨ m = 6 ∨ m = 9 ∨ m = 11 then 30
  else if m = 2 then (if isLeapYear y then 29 else 28)
  else 0

/-- Days from 0001-01-01 to `y`-01-01. -/
def daysBeforeYear (y : Nat) : Nat :=
  365 * (y - 1) + (y - 1) / 4 - (y - 1) / 100 + (y - 1) / 400

/-- Days from `y`-01-01 to `y`-`m`-01. -/
def daysBeforeMonth (y m : Nat) : Nat :=
  ((List.range (m - 1)).map (fun i => daysInMonth y (i + 1))).sum

/-- Python's `date(y, m, d).toordinal()` (0001-01-01 is day 1). -/
def toOrdinalDay (y m d : Nat) : Nat :=
  daysBeforeYear y + daysBeforeMonth y m + d

/-- `datetime(y, m, d, tzinfo=utc).timestamp()`: seconds since the Unix
epoch of that UTC midnight (1970-01-01 has ordinal 719163). -/
def utcMidnight (y m d : Nat) : Int :=
  86400 * ((toOrdinalDay y m d : Int) - 719163)

/-- Digit run to a number. -/
def digitsToNat (cs : List Char) : Nat :=
  cs.foldl (fun n c => 10 * n + (c.toNat - '0'.toNat)) 0

/-- `_parse_event_date`: match `^(\d{1,2})/(\d{1,2})/(\d{4})$` on the
stripped string and build `datetime(year, month, day, tzinfo=utc)`,
returning the UTC-midnight epoch seconds, or `none` for a non-string, a
non-matching string, or a calendar-invalid date (the `ValueError` path). -/
def parse_event_date (v : Json) : Option Int :=
  match v with
  | .str s =>
      let cs := (pyStrip s).data
      let g1 := cs.takeWhile Char.isDigit
      let r1 := cs.dropWhile Char.isDigit
      if 1 ≤ g1.length ∧ g1.length ≤ 2 then
        match r1 with
        | '/' :: r2 =>
            let g2 := r2.takeWhile Char.isDigit
            let r3 := r2.dropWhile Char.isDigit
            if 1 ≤ g2.length ∧ g2.length ≤ 2 then
              match r3 with
              | '/' :: r4 =>
                  let g3 := r4.takeWhile Char.isDigit
                  let r5 := r4.dropWhile Char.isDigit
                  if g3.length = 4 ∧ r5 = [] then
                    let y := digitsToNat g3
                    let mo := digitsToNat g1
                    let d := digitsToNat g2
                    if 1 ≤ y ∧ 1 ≤ mo ∧ mo ≤ 12 ∧ 1 ≤ d ∧ d ≤ daysInMonth y mo then
                      some (utcMidnight y mo d)
                    else none
                  else none
              | _ => none
            else none
        | _ => none
      else none
  | _ => none

/-- `_compute_expiry(result)`: status-dependent expiry, `now` being
`datetime.now(timezone.utc)` in epoch seconds. -/
def compute_expiry (result : JRec) (now : Int) : Int :=
  let status := dget result "status" (.str "uncertain")
  if status = .str "found" ∨ status = .str "3rdpty_found" then
    match parse_event_date (dget result "event_date" (.str "")) with
    | some t => t + 86400
    | none => now + 90 * 86400
  else if status = .str "not_found" then now + 30 * 86400
  else if status = .str "error" then now + 7 * 86400
  else now + 3600

/-- A row of the `research_cache` table.  `result_json` holds the record
(JSON serialization round-trips, so it is kept structured); `expires_at`
is always set by `cache_put`, so the code's NULL/str-typed branches for
legacy rows are outside the model. -/
structure CacheEntry where
  result_json : JRec
  status : Json
  event_title : Json
  created_at : Int
  expires_at : Int
deriving Repr, DecidableEq

/-- The backing key-value store (`research_cache` keyed by `cache_key`). -/
abbrev Store := List (String × CacheEntry)

/-- Point lookup by key. -/
def store_lookup (store : Store) (k : String) : Option CacheEntry :=
  (store.find? (fun e => e.1 == k)).map (fun e => e.2)

/-- Point delete by key. -/
def store_delete (store : Store) (k : String) : Store :=
  store.filter (fun e => e.1 != k)

/-- `cache_put(nonprofit, result)`: upsert (overwrite semantics) under
the normalized key, with `expires_at` computed by the expiry policy and
`created_at = NOW()`. -/
def cache_put (store : Store) (now : Int) (nonprofit : String) (result : JRec) : Store :=
  let k := cache_key nonprofit
  store_delete store k ++
    [(k, { result_json := result,
           status := dget result "status" (.str "uncertain"),
           event_title := dget result "event_title" (.str ""),
           created_at := now,
           expires_at := compute_expiry result now })]

/-- `cache_get(nonprofit)`: look up by normalized key; on `now >
expires_at` delete the row and report a miss, otherwise return the stored
record. -/
def cache_get (store : Store) (now : Int) (nonprofit : String) : Option JRec × Store :=
  let k := cache_key nonprofit
  match store_lookup store k with
  | none => (none, store)
  | some row =>
      if now > row.expires_at then (none, store_delete store k)
      else (some row.result_json, store)

/-! ### Research client and enrichment pipeline (`src/bot.py` lines 405–645) -/

/-- A content block of the provider's response (`hasattr(block, "text")`
distinguishes text blocks from tool-use blocks). -/
def ContentBlock := Option String

/-- The outcome of one `client.messages.create` request: the response, or
the exception it raised (rate-limit, timeout, …) with its message. -/
def ApiOutcome := Except String (List ContentBlock)

/-- `_claude_call`: ONE synchronous request; the text parts of the
response joined with newlines.  There is no retry loop, no sleep and no
backoff state in the source — an exception propagates to the caller
unchanged. -/
def claude_call (outcome : ApiOutcome) : Except String String :=
  match outcome with
  | .error e => .error e
  | .ok blocks => .ok (String.intercalate "\n" (blocks.filterMap (fun b => b)))

/-- How one phase call can fail inside the pipeline's `try` block:
`parse` is `json.JSONDecodeError` (JSON extraction failed), `exc msg` is
any other exception (provider error, rate limit, timeout) carrying the
Python exception's string. -/
inductive PErr where
  | parse : PErr
  | exc (msg : String) : PErr
deriving Repr, DecidableEq

/-- The environment one `research_nonprofit` run observes: the cache
lookup for its identifier and the outcome of each research-capability
call it may issue (phase 1, phase 2, and the phase-3 follow-up calls in
order). `nowIso` stands for the wall-clock ISO timestamp. -/
structure PipelineEnv where
  cached : Option JRec
  scan : Except PErr JRec
  deep : Except PErr JRec
  follow : Nat → Except PErr JRec
  nowIso : String

/-- What one pipeline run produced: the returned record, the record
handed to `cache_put` (if any), how many research-capability calls were
issued, and whether a phase-2 (deep research) call was issued. -/
structure PipeOut where
  result : JRec
  cacheWrite : Option JRec
  apiCalls : Nat
  ranPhase2 : Bool
deriving Repr, DecidableEq

/-- `needle in haystack` for strings (Python substring test). -/
def strContains (haystack needle : String) : Bool :=
  go needle.data haystack.data
where
  go (pat : List Char) : List Char → Bool
    | [] => pat.isEmpty
    | c :: cs => startsWithL pat (c :: cs) || go pat cs

/-- Is the exception message a rate-limit abort
(`"429" in err_msg or "RESOURCE_EXHAUSTED" in err_msg`)? -/
def isRateLimitMsg (msg : String) : Bool :=
  strContains msg "429" || strContains msg "RESOURCE_EXHAUSTED"

/-- The `except json.JSONDecodeError` handler: error record, always
cached (`text` is still `""` at that point, so `raw` is `""`). -/
def pipelineParseFail (env : PipelineEnv) (nonprofit : String) (calls : Nat)
    (phase2 : Bool) : PipeOut :=
  let err := error_result nonprofit "Failed to parse response as JSON" "" env.nowIso
  ⟨err, some err, calls, phase2⟩

/-- The `except Exception` handler: error record, cached unless the
message marks a rate-limit abort. -/
def pipelineExcFail (env : PipelineEnv) (nonprofit msg : String) (calls : Nat)
    (phase2 : Bool) : PipeOut :=
  let err := error_result nonprofit msg "" env.nowIso
  ⟨err, if isRateLimitMsg msg then none else some err, calls, phase2⟩

/-- The phase-3 loop body for one missing field: merge a non-empty answer
(and its source URL) into the record; any exception is swallowed. -/
def applyFollowup (r : JRec) (field : String) (call : Except PErr JRec) : JRec :=
  match call with
  | .error _ => r
  | .ok fu =>
      let value := pyStrip (dgetStr fu field)
      if value ≠ "" then
        let r1 := jset r field (.str value)
        if pyTruthy (dget fu "source_url" .null) then
          jset r1 "contact_source_url" (dget fu "source_url" .null)
        else r1
      else r

/-- The phase-3 loop over `missing[:3]`, one follow-up call per field. -/
def applyFollowups (r : JRec) (fields : List String)
    (follow : Nat → Except PErr JRec) (i : Nat) : JRec :=
  match fields with
  | [] => r
  | f :: fs => applyFollowups (applyFollowup r f (follow i)) fs follow (i + 1)

/-- Phases 2 and 3 of `research_nonprofit` (`src/bot.py` lines 559–632):
deep research, optional targeted follow-ups, final classification and
cache write.  Entered with `api_calls = 1` already spent on the scan. -/
def pipelineDeep (env : PipelineEnv) (nonprofit : String) : PipeOut :=
  match env.deep with
  | .error .parse => pipelineParseFail env nonprofit 2 true
  | .error (.exc msg) => pipelineExcFail env nonprofit msg 2 true
  | .ok deep0 =>
      let result := jset (jset deep0 "_processed_at" (.str env.nowIso)) "_source" (.str "claude")
      let status := dget result "status" (.str "uncertain")
      if status = .str "not_found" then
        let result := jset (jset result "_api_calls" (.num 2)) "_phase" (.str "deep_research")
        ⟨result, some result, 2, true⟩
      else
        let tier := (classify_lead_tier result).1
        let missing := missing_billable_fields result
        if tier ≠ "not_billable" ∧ missing = [] then
          let result := jset (jset result "_api_calls" (.num 2)) "_phase" (.str "deep_research")
          ⟨result, some result, 2, true⟩
        else
          let chase := missing ≠ [] ∧ pyStrip (dgetStr result "event_title") ≠ ""
          let result2 := if chase then applyFollowups result (missing.take 3) env.follow 0 else result
          let calls := 2 + (if chase then (missing.take 3).length else 0)
          let result2 := jset (jset result2 "_api_calls" (.num calls)) "_phase"
            (.str ("phase_" ++ toString calls))
          ⟨result2, some result2, calls, true⟩

/-- The `_all_filled` test of the quick-positive early stop: the record
built from the scan classifies as the top (`full`) tier and each of the
five checked ancillary fields — `evidence_date`, `contact_role`,
`organization_address`, `organization_phone_maps`,
`contact_source_url` — is non-empty.  (`evidence_auction` is NOT among
the checked fields.) -/
def quick_scan_all_filled (scan : JRec) (nonprofit : String) : Bool :=
  let full := quick_scan_to_full scan nonprofit
  (classify_lead_tier full).1 == "full" && has_valid_url full
    && !(pyStrip (dgetStr full "evidence_date")).isEmpty
    && !(pyStrip (dgetStr full "contact_role")).isEmpty
    && !(pyStrip (dgetStr full "organization_address")).isEmpty
    && !(pyStrip (dgetStr full "organization_phone_maps")).isEmpty
    && !(pyStrip (dgetStr full "contact_source_url")).isEmpty

/-- Phase 1 dispatch of `research_nonprofit` (`src/bot.py` lines
521–557): the quick scan, the quick-negative early stop, and the
quick-positive early stop that requires a `full`-tier record with every
checked ancillary field non-empty. -/
def pipelineAfterScan (env : PipelineEnv) (nonprofit : String) (scan : JRec) : PipeOut :=
  let hasEvent := pyTruthy (dget scan "has_event" .null)
  let conf := asNum (dget scan "confidence" (.num 0))
  if !hasEvent && decide (conf ≥ mkRat 4 5) then
    let result := quick_scan_to_full scan nonprofit
    let result := jset result "_api_calls" (.num 1)
    let result := jset result "_phase" (.str "quick_scan")
    let result := jset result "_processed_at" (.str env.nowIso)
    let result := jset result "_source" (.str "claude")
    ⟨result, some result, 1, false⟩
  else
    let earlyPos := hasEvent && decide (conf ≥ mkRat 17 20)
      && quick_scan_all_filled scan nonprofit
    if earlyPos then
      let full := quick_scan_to_full scan nonprofit
      let full := jset full "_api_calls" (.num 1)
      let full := jset full "_phase" (.str "quick_scan")
      let full := jset full "_processed_at" (.str env.nowIso)
      let full := jset full "_source" (.str "claude")
      ⟨full, some full, 1, false⟩
    else pipelineDeep env nonprofit

/-- `research_nonprofit`: cache short-circuit, then the 3-phase
early-stop strategy inside one `try` whose two handlers convert any
failure into the standardized error record. -/
def research_nonprofit (env : PipelineEnv) (nonprofit : String) : PipeOut :=
  match env.cached with
  | some cached =>
      let c := jset (jset cached "_source" (.str "cache")) "_api_calls" (.num 0)
      ⟨c, none, 0, false⟩
  | none =>
      match env.scan with
      | .error .parse => pipelineParseFail env nonprofit 1 false
      | .error (.exc msg) => pipelineExcFail env nonprofit msg 1 false
      | .ok scan => pipelineAfterScan env nonprofit scan

/-! ### Batch orchestrator (`src/bot.py` lines 650–731)

`run` truncates the input to `MAX_NONPROFITS`, chunks it into batches of
`BATCH_SIZE`, processes the batches in groups of `MAX_PARALLEL_BATCHES`,
and inside each group runs `asyncio.gather` over the batches while each
batch itself `asyncio.gather`s its per-identifier tasks.  `gather` is
modelled faithfully to its contract: tasks finish in an arbitrary
completion order, each finished task deposits its result at its task
index, and the collected results are read back in task order. -/

def BATCH_SIZE : Nat := 5
def MAX_PARALLEL_BATCHES : Nat := 2
def MAX_NONPROFITS : Nat := 1000

/-- The events of one `asyncio.gather`: task `i` finishing deposits
`(i, results[i])`; `order` is the completion order of the task indices. -/
def gatherEvents (results : List α) (order : List Nat) : List (Nat × α) :=
  order.filterMap (fun i => (results.get? i).map (fun r => (i, r)))

/-- `asyncio.gather` returns the deposited results read back in task
order (`none` if some task never completed — ruled out by a valid
schedule). -/
def gatherSim (results : List α) (order : List Nat) : Option (List α) :=
  (List.range results.length).mapM
    (fun i => ((gatherEvents results order).find? (fun e => e.1 == i)).map (fun e => e.2))

/-- One schedule entry per batch group: the completion order of each
batch's per-identifier tasks, and the completion order of the batches in
the group. -/
structure SchedGroup where
  taskOrds : List (List Nat)
  batchOrd : List Nat

/-- Chunk a list into runs of `n`, fuel-indexed so that it reduces in the
kernel (`chunkList` supplies enough fuel). -/
def chunkListF (n : Nat) : Nat → List α → List (List α)
  | 0, _ => []
  | _, [] => []
  | fuel + 1, x :: rest =>
      if n = 0 then []
      else (x :: rest).take n :: chunkListF n fuel ((x :: rest).drop n)

/-- Chunk a list into runs of `n`
(`[xs[i:i+n] for i in range(0, len, n)]`; the `n = 0` case never arises,
the sizes are positive constants). -/
def chunkList (n : Nat) (xs : List α) : List (List α) :=
  chunkListF n (xs.length + 1) xs

/-- The batches `run` builds. -/
def batchesOf (nonprofits : List α) : List (List α) :=
  chunkList BATCH_SIZE (nonprofits.take MAX_NONPROFITS)

/-- The batch groups `run` iterates over. -/
def groupsOf (nonprofits : List α) : List (List (List α)) :=
  chunkList MAX_PARALLEL_BATCHES (batchesOf nonprofits)

/-- `process_batch`: gather the batch's per-identifier research tasks. -/
def process_batch (research : α → β) (batch : List α) (ord : List Nat) :
    Option (List β) :=
  gatherSim (batch.map research) ord

/-- Sequence a list of options. -/
def seqOpt : List (Option α) → Option (List α)
  | [] => some []
  | o :: os => do
      let x ← o
      let xs ← seqOpt os
      pure (x :: xs)

/-- The group loop of `run`: per group, gather the batch tasks and extend
the accumulated results in batch order. -/
def runGroups (research : α → β) : List (List (List α)) → List SchedGroup → Option (List β)
  | [], _ => some []
  | _ :: _, [] => none
  | g :: gs, sg :: sgs => do
      let inner ← seqOpt (List.zipWith (fun batch ord => process_batch research batch ord) g sg.taskOrds)
      if g.length = sg.taskOrds.length then
        let outer ← gatherSim inner sg.batchOrd
        let rest ← runGroups research gs sgs
        pure (outer.flatten ++ rest)
      else none

/-- `run(nonprofits)`: truncate, batch, and process batch groups,
returning all results in input order.  `research` is the per-identifier
enrichment (the orchestrator treats `research_nonprofit` as a black box),
`sched` the completion orders the event loop happens to produce. -/
def runOrchestrator (research : α → β) (nonprofits : List α) (sched : List SchedGroup) :
    Option (List β) :=
  runGroups research (groupsOf nonprofits) sched

/-- A schedule is valid when every task of every gather eventually
completes: each completion order is a permutation of the task indices. -/
def SchedOK (groups : List (List (List α))) (sched : List SchedGroup) : Prop :=
  List.Forall₂
    (fun g sg =>
      sg.batchOrd.Perm (List.range g.length) ∧
      List.Forall₂ (fun (batch : List α) ord => ord.Perm (List.range batch.length)) g sg.taskOrds)
    groups sched

/-- `List.Forall₂` is decidable when the relation is. -/
def decForallTwo (R : α → β → Prop) [inst : ∀ a b, Decidable (R a b)] :
    ∀ (l₁ : List α) (l₂ : List β), Decidable (List.Forall₂ R l₁ l₂)
  | [], [] => isTrue List.Forall₂.nil
  | [], _ :: _ => isFalse (fun h => by cases h)
  | _ :: _, [] => isFalse (fun h => by cases h)
  | a :: as, b :: bs =>
      match inst a b, decForallTwo R as bs with
      | isTrue h1, isTrue h2 => isTrue (List.Forall₂.cons h1 h2)
      | isFalse h1, _ => isFalse (fun h => by cases h; exact h1 (by assumption))
      | _, isFalse h2 => isFalse (fun h => by cases h; exact h2 (by assumption))

instance : ∀ (l₁ : List α) (l₂ : List β) (R : α → β → Prop) [∀ a b, Decidable (R a b)],
    Decidable (List.Forall₂ R l₁ l₂) :=
  fun l₁ l₂ R _ => decForallTwo R l₁ l₂

instance {groups : List (List (List α))} {sched : List SchedGroup} [DecidableEq α] :
    Decidable (SchedOK groups sched) :=
  decForallTwo _ groups sched

/-! ### JSON parsing and `extract_json` (`src/bot.py` lines 210–265)

A fuel-indexed recursive-descent parser for the JSON grammar accepted by
`json.loads` (objects, arrays, strings with escapes, numbers, literals;
the non-standard `NaN`/`Infinity` extensions are outside the model), and
the layered extraction strategies of `extract_json`. -/

/-- JSON whitespace skipped by Python's parser. -/
def isJsonWs (c : Char) : Bool :=
  c == ' ' || c == '\t' || c == '\n' || c == '\r'

/-- Hex digit value. -/
def hexVal (c : Char) : Nat :=
  if c.isDigit then c.toNat - '0'.toNat
  else if 'a' ≤ c ∧ c ≤ 'f' then c.toNat - 'a'.toNat + 10
  else c.toNat - 'A'.toNat + 10

/-- Is `c` a hexadecimal digit? -/
def isHexDigitC (c : Char) : Bool :=
  c.isDigit || ('a' ≤ c && c ≤ 'f') || ('A' ≤ c && c ≤ 'F')

/-- Decode a single-character JSON escape. -/
def escChar (e : Char) : Option Char :=
  if e = '"' then some '"'
  else if e = '\\' then some '\\'
  else if e = '/' then some '/'
  else if e = 'b' then some '\x08'
  else if e = 'f' then some '\x0c'
  else if e = 'n' then some '\n'
  else if e = 'r' then some '\r'
  else if e = 't' then some '\t'
  else none

/-- Parse the body of a JSON string after the opening quote: the decoded
characters and the rest.  Rejects unescaped control characters and bad
escapes, as `json.loads` (strict mode) does. -/
def parseStringBody : List Char → Option (List Char × List Char)
  | [] => none
  | '"' :: cs => some ([], cs)
  | '\\' :: [] => none
  | '\\' :: e :: cs' =>
      if e = 'u' then
        match cs' with
        | h1 :: h2 :: h3 :: h4 :: cs'' =>
            if isHexDigitC h1 && isHexDigitC h2 && isHexDigitC h3 && isHexDigitC h4 then
              match parseStringBody cs'' with
              | some (tail, rest') =>
                  some (Char.ofNat
                    (((hexVal h1 * 16 + hexVal h2) * 16 + hexVal h3) * 16 + hexVal h4) :: tail,
                    rest')
              | none => none
            else none
        | _ => none
      else
        match escChar e with
        | some d =>
            match parseStringBody cs' with
            | some (tail, rest') => some (d :: tail, rest')
            | none => none
        | none => none
  | c :: cs =>
      if c.toNat < 32 then none
      else
        match parseStringBody cs with
        | some (tail, rest') => some (c :: tail, rest')
        | none => none

/-- Digit run to a natural number. -/
def natOfDigits (cs : List Char) : Nat :=
  cs.foldl (fun n c => 10 * n + (c.toNat - '0'.toNat)) 0

/-- Parse a JSON number (`-?(0|[1-9][0-9]*)(\.[0-9]+)?([eE][+-]?[0-9]+)?`)
into a rational and the rest. -/
def parseNumber (cs : List Char) : Option (ℚ × List Char) :=
  let (neg, cs1) :=
    match cs with
    | '-' :: rest => (true, rest)
    | _ => (false, cs)
  let intDigits := cs1.takeWhile Char.isDigit
  let cs2 := cs1.dropWhile Char.isDigit
  if intDigits.isEmpty then none
  else if intDigits.length > 1 ∧ intDigits.headI = '0' then none
  else
    let (fracDigits, cs3) :=
      match cs2 with
      | '.' :: rest => (rest.takeWhile Char.isDigit, rest.dropWhile Char.isDigit)
      | _ => ([], cs2)
    if cs2 ≠ [] ∧ cs2.headI = '.' ∧ fracDigits.isEmpty then none
    else
      let expPart : Option (Bool × List Char × List Char) :=
        match cs3 with
        | e :: rest =>
            if e = 'e' ∨ e = 'E' then
              let (eneg, rest1) :=
                match rest with
                | '-' :: r => (true, r)
                | '+' :: r => (false, r)
                | _ => (false, rest)
              some (eneg, rest1.takeWhile Char.isDigit, rest1.dropWhile Char.isDigit)
            else none
        | [] => none
      let n : Int := natOfDigits (intDigits ++ fracDigits)
      let n : Int := if neg then -n else n
      let d : Nat := 10 ^ fracDigits.length
      match expPart with
      | some (eneg, expDigits, cs4) =>
          if expDigits.isEmpty then none
          else if eneg then some (mkRat n (d * 10 ^ natOfDigits expDigits), cs4)
          else some (mkRat (n * 10 ^ natOfDigits expDigits) d, cs4)
      | none => some (mkRat n d, cs3)

mutual

/-- Parse one JSON value (fuel-indexed; enough fuel makes it total on the
inputs the theorems use). -/
def parseValue : Nat → List Char → Option (Json × List Char)
  | 0, _ => none
  | fuel + 1, cs =>
      match cs.dropWhile isJsonWs with
      | [] => none
      | c :: rest =>
          if c = '{' then parseMembers fuel rest true
          else if c = '[' then parseElements fuel rest true
          else if c = '"' then
            match parseStringBody rest with
            | some (body, rest') => some (.str (String.mk body), rest')
            | none => none
          else if c = 't' then
            match rest with
            | 'r' :: 'u' :: 'e' :: rest' => some (.bool true, rest')
            | _ => none
          else if c = 'f' then
            match rest with
            | 'a' :: 'l' :: 's' :: 'e' :: rest' => some (.bool false, rest')
            | _ => none
          else if c = 'n' then
            match rest with
            | 'u' :: 'l' :: 'l' :: rest' => some (.null, rest')
            | _ => none
          else if c = '-' ∨ c.isDigit then
            match parseNumber (c :: rest) with
            | some (q, rest') => some (.num q, rest')
            | none => none
          else none

/-- Parse the members of an object after `{` (`first` marks the position
right after the brace, where `}` closes an empty object). -/
def parseMembers : Nat → List Char → Bool → Option (Json × List Char)
  | 0, _, _ => none
  | fuel + 1, cs, first =>
      match cs.dropWhile isJsonWs with
      | [] => none
      | c :: rest =>
          if first ∧ c = '}' then some (.obj [], rest)
          else if c = '"' then
            match parseStringBody rest with
            | none => none
            | some (key, rest1) =>
                match rest1.dropWhile isJsonWs with
                | ':' :: rest2 =>
                    match parseValue fuel rest2 with
                    | none => none
                    | some (v, rest3) =>
                        match rest3.dropWhile isJsonWs with
                        | ',' :: rest4 =>
                            match parseMembers fuel rest4 false with
                            | some (.obj ms, rest5) => some (.obj ((String.mk key, v) :: ms), rest5)
                            | _ => none
                        | '}' :: rest4 => some (.obj [(String.mk key, v)], rest4)
                        | _ => none
                | _ => none
          else none

/-- Parse the elements of an array after `[`. -/
def parseElements : Nat → List Char → Bool → Option (Json × List Char)
  | 0, _, _ => none
  | fuel + 1, cs, first =>
      match cs.dropWhile isJsonWs with
      | [] => none
      | c :: rest =>
          if first ∧ c = ']' then some (.arr [], rest)
          else
            match parseValue fuel (c :: rest) with
            | none => none
            | some (v, rest1) =>
                match rest1.dropWhile isJsonWs with
                | ',' :: rest2 =>
                    match parseElements fuel rest2 false with
                    | some (.arr vs, rest3) => some (.arr (v :: vs), rest3)
                    | _ => none
                | ']' :: rest2 => some (.arr [v], rest2)
                | _ => none

end

/-- A well-typed lead record carrying the six fields the classifier
reads, as string values (the shape `extract_json` delivers for them). -/
def mkLeadRecord (title date url auction name email : String) : JRec :=
  [("event_title", .str title), ("event_date", .str date), ("event_url", .str url),
   ("auction_type", .str auction), ("contact_name", .str name), ("contact_email", .str email)]

/-- The amended classification table, written from the amended claim's
words: the first gate requires `event_title`, `event_date` and an
`http(s)` `event_url`; then `full` ($1.50) needs `auction_type`,
`contact_name` and a valid `contact_email`; `partial` ($1.25) needs
`auction_type` and a valid email; `semi` ($1.00) a valid email; `bare`
($0.75) otherwise. -/
def classifySpecAmended (title date url auction name email : String) : String × Nat :=
  let titleOk := !(pyStrip title).isEmpty
  let dateOk := !(pyStrip date).isEmpty
  let urlOk := strStarts (pyStrip url) "http://" || strStarts (pyStrip url) "https://"
  let auctionOk := !(pyStrip auction).isEmpty
  let nameOk := !(pyStrip name).isEmpty
  let emailOk := is_valid_email email
  if !(titleOk && dateOk && urlOk) then ("not_billable", 0)
  else if auctionOk && nameOk && emailOk then ("full", 150)
  else if auctionOk && emailOk then ("partial", 125)
  else if emailOk then ("semi", 100)
  else ("bare", 75)

/-- The fixed string fields of a ResearchRecord (the CSV columns minus
the numeric `confidence_score`). -/
def fixedStringFields : List String :=
  ["nonprofit_name", "event_title", "evidence_date", "auction_type", "event_date",
   "event_url", "evidence_auction", "contact_name", "contact_email",
   "contact_role", "organization_address", "organization_phone_maps",
   "contact_source_url", "event_summary"]

/-- The record invariant of the spec's data model: non-empty `status`,
`confidence_score` in `[0, 1]`, and every fixed string field present with
a string value. -/
def RecordInvariant (r : JRec) : Prop :=
  (∃ s, jlookup r "status" = some (.str s) ∧ s ≠ "") ∧
  (∃ q, jlookup r "confidence_score" = some (.num q) ∧ 0 ≤ q ∧ q ≤ 1) ∧
  (∀ k ∈ fixedStringFields, ∃ s, jlookup r k = some (.str s))

/-- An environment whose phase-1 call raises with message `msg` (cache
miss; later phases irrelevant). -/
def envScanExc (msg : String) : PipelineEnv :=
  { cached := none, scan := .error (.exc msg), deep := .error .parse,
    follow := fun _ => .error .parse, nowIso := "2026-02-01T00:00:00+00:00" }

/-- A quick-scan response reporting an event at confidence 0.9 with every
field filled EXCEPT the supporting evidence field `evidence_auction`. -/
def scanNoEvidenceAuction : JRec :=
  [("has_event", .bool true), ("confidence", .num (mkRat 9 10)),
   ("nonprofit_name", .str "Acme"), ("event_title", .str "Spring Gala"),
   ("event_date", .str "3/5/2026"), ("evidence_date", .str "March 5, 2026 6pm"),
   ("event_url", .str "https://acme.org/gala"), ("auction_type", .str "silent"),
   ("contact_name", .str "Ann Lee"), ("contact_email", .str "ann@acme.org"),
   ("contact_role", .str "Development Director"),
   ("organization_address", .str "1 Main St, Springfield, IL 62701"),
   ("organization_phone_maps", .str "555-0100"),
   ("contact_source_url", .str "https://acme.org/staff"),
   ("evidence_auction", .str ""), ("notes", .str "confirmed on event page")]

/-- Environment for the C7 counterexample: cache miss, the quick scan
returns `scanNoEvidenceAuction`, phases 2/3 would fail if reached. -/
def envC7 : PipelineEnv :=
  { cached := none, scan := .ok scanNoEvidenceAuction, deep := .error .parse,
    follow := fun _ => .error .parse, nowIso := "2026-02-01T00:00:00+00:00" }

/-- A deep-research response that is billable with no missing billable
field but lacks the `contact_name`, `confidence_score`, `evidence_date`,
`evidence_auction`, `contact_source_url` and `event_summary` keys
entirely. -/
def deepNoContactName : JRec :=
  [("status", .str "found"), ("nonprofit_name", .str "Acme"),
   ("event_title", .str "Spring Gala"), ("event_date", .str "3/5/2026"),
   ("event_url", .str "https://acme.org/gala"), ("auction_type", .str "silent"),
   ("contact_email", .str "ann@acme.org"), ("contact_role", .str "Development Director"),
   ("organization_address", .str "1 Main St"), ("organization_phone_maps", .str "555-0100")]

/-- Environment for the C10 counterexample: the quick scan is positive
but incomplete, and deep research returns `deepNoContactName`. -/
def envC10 : PipelineEnv :=
  { cached := none,
    scan := .ok [("has_event", .bool true), ("confidence", .num (mkRat 9 10))],
    deep := .ok deepNoContactName,
    follow := fun _ => .error .parse, nowIso := "2026-02-01T00:00:00+00:00" }

/-- An environment whose phase-1 call fails JSON extraction. -/
def envScanParse : PipelineEnv :=
  { cached := none, scan := .error .parse, deep := .error .parse,
    follow := fun _ => .error .parse, nowIso := "2026-02-01T00:00:00+00:00" }

/-- An environment whose phase-2 call raises with message `msg` (the
quick scan succeeded but was inconclusive). -/
def envDeepExc (msg : String) : PipelineEnv :=
  { cached := none, scan := .ok [], deep := .error (.exc msg),
    follow := fun _ => .error .parse, nowIso := "2026-02-01T00:00:00+00:00" }

/-- A high-confidence quick-negative scan and its environment. -/
def scanQuickNeg : JRec :=
  [("has_event", .bool false), ("confidence", .num (mkRat 9 10)),
   ("notes", .str "no upcoming events found")]

/-- Environment for the quick-negative witness. -/
def envQuickNeg : PipelineEnv :=
  { cached := none, scan := .ok scanQuickNeg, deep := .error .parse,
    follow := fun _ => .error .parse, nowIso := "2026-02-01T00:00:00+00:00" }

/-- A high-confidence positive scan whose `contact_email` is empty, and
its environment (phase 2 succeeds with a `not_found`). -/
def scanNoEmail : JRec :=
  [("has_event", .bool true), ("confidence", .num (mkRat 9 10)),
   ("event_title", .str "Spring Gala"), ("event_date", .str "3/5/2026"),
   ("event_url", .str "https://acme.org/gala"), ("auction_type", .str "silent"),
   ("contact_name", .str "Ann Lee"), ("contact_email", .str "")]

/-- Environment for the phase-2-must-run witness. -/
def envQuickPosIncomplete : PipelineEnv :=
  { cached := none, scan := .ok scanNoEmail,
    deep := .ok [("status", .str "not_found"), ("nonprofit_name", .str "Acme")],
    follow := fun _ => .error .parse, nowIso := "2026-02-01T00:00:00+00:00" }

/-! ## Claim C1 — status-dependent cache expiry -/

/-- C1 (confirmed): every record written through the cache's `put` gets
the status-dependent expiry: for `found`/`3rdpty_found` (the code's
spelling of the spec's `third_party_found`) with an `event_date` parsing
as `M/D/YYYY`, `expires_at` is the event date plus one day — in
particular `found` with `"3/5/2026"` expires at 2026-03-06T00:00:00Z —
and 90 days from now when unparseable; `not_found` expires in 30 days,
`error` in 7 days, `uncertain` in 1 hour. -/
theorem c1_expiry_policy :
    (∀ (r : JRec) (now t : Int),
        (dget r "status" (.str "uncertain") = .str "found" ∨
          dget r "status" (.str "uncertain") = .str "3rdpty_found") →
        (parse_event_date (dget r "event_date" (.str "")) = some t →
          compute_expiry r now = t + 86400) ∧
        (parse_event_date (dget r "event_date" (.str "")) = none →
          compute_expiry r now = now + 90 * 86400)) ∧
    (∀ (r : JRec) (now : Int), dget r "status" (.str "uncertain") = .str "not_found" →
        compute_expiry r now = now + 30 * 86400) ∧
    (∀ (r : JRec) (now : Int), dget r "status" (.str "uncertain") = .str "error" →
        compute_expiry r now = now + 7 * 86400) ∧
    (∀ (r : JRec) (now : Int), dget r "status" (.str "uncertain") = .str "uncertain" →
        compute_expiry r now = now + 3600) ∧
    (∀ now : Int,
        compute_expiry [("status", .str "found"), ("event_date", .str "3/5/2026")] now =
          utcMidnight 2026 3 6) := by
  refine ⟨?_, ?_, ?_, ?_, ?_⟩
  · intro r now t h
    constructor <;> intro hp <;> simp only [compute_expiry] <;> rw [if_pos h, hp]
  · intro r now h
    simp [compute_expiry, h]
  · intro r now h
    simp [compute_expiry, h]
  · intro r now h
    simp [compute_expiry, h]
  · intro now
    have h1 : compute_expiry [("status", Json.str "found"), ("event_date", Json.str "3/5/2026")]
        now = utcMidnight 2026 3 5 + 86400 := rfl
    rw [h1]
    decide

/-- Witness for C1: concrete records exercise each expiry branch. -/
theorem c1_expiry_policy_witness :
    compute_expiry [("status", Json.str "found"), ("event_date", Json.str "3/5/2026")] 1000 =
      utcMidnight 2026 3 6 ∧
    compute_expiry [("status", Json.str "3rdpty_found"), ("event_date", Json.str "bad")] 1000 =
      1000 + 90 * 86400 ∧
    compute_expiry [("status", Json.str "not_found")] 1000 = 1000 + 30 * 86400 ∧
    compute_expiry [("status", Json.str "error")] 1000 = 1000 + 7 * 86400 ∧
    compute_expiry [("status", Json.str "uncertain")] 1000 = 1000 + 3600 :=
  ⟨c1_expiry_policy.2.2.2.2 1000,
   (c1_expiry_policy.1 _ 1000 0 (Or.inr (by decide))).2 (by decide),
   c1_expiry_policy.2.1 _ 1000 (by decide),
   c1_expiry_policy.2.2.1 _ 1000 (by decide),
   c1_expiry_policy.2.2.2.1 _ 1000 (by decide)⟩

/-! ## Claim C8 — lazy expiry on cache reads -/

/-- Deleting a key makes its raw lookup miss. -/
theorem store_lookup_delete (store : Store) (k : String) :
    store_lookup (store_delete store k) k = none := by
  induction store with
  | nil => rfl
  | cons a rest ih =>
      by_cases h : a.1 = k
      · simp [store_delete, store_lookup, List.filter_cons, h]
      · simp [store_delete, store_lookup, List.filter_cons, List.find?_cons, h]

/-- C8 (confirmed): a `get` on an entry whose `expires_at` is earlier
than the current time returns absent and deletes the row (a subsequent
raw lookup of the store misses); a `get` on a non-expired entry returns
the stored record and leaves the store unchanged. -/
theorem c8_lazy_expiry (store : Store) (now : Int) (nonprofit : String) (row : CacheEntry)
    (hrow : store_lookup store (cache_key nonprofit) = some row) :
    (row.expires_at < now →
        cache_get store now nonprofit = (none, store_delete store (cache_key nonprofit)) ∧
        store_lookup (store_delete store (cache_key nonprofit)) (cache_key nonprofit) = none) ∧
    (now ≤ row.expires_at →
        cache_get store now nonprofit = (some row.result_json, store)) := by
  constructor
  · intro hexp
    refine ⟨?_, store_lookup_delete _ _⟩
    simp only [cache_get, hrow]
    rw [if_pos hexp]
  · intro hfresh
    simp only [cache_get, hrow]
    rw [if_neg (not_lt.mpr hfresh)]

/-- Witness for C8 at a concrete store: the entry for `"Acme "`
(normalized `"acme"`) expires at 100; a read at 200 misses and removes
it, a read at 50 returns the stored record. -/
theorem c8_lazy_expiry_witness :
    (cache_get [("acme", ⟨[("status", Json.str "found")], Json.str "found", Json.str "", 0, 100⟩)]
        200 "Acme " =
      (none, []) ∧
     store_lookup (store_delete
        [("acme", ⟨[("status", Json.str "found")], Json.str "found", Json.str "", 0, 100⟩)]
        (cache_key "Acme ")) (cache_key "Acme ") = none) ∧
    cache_get [("acme", ⟨[("status", Json.str "found")], Json.str "found", Json.str "", 0, 100⟩)]
        50 "Acme " =
      (some [("status", Json.str "found")],
       [("acme", ⟨[("status", Json.str "found")], Json.str "found", Json.str "", 0, 100⟩)]) := by
  constructor
  · have h := (c8_lazy_expiry
      [("acme", ⟨[("status", Json.str "found")], Json.str "found", Json.str "", 0, 100⟩)]
      200 "Acme " ⟨[("status", Json.str "found")], Json.str "found", Json.str "", 0, 100⟩
      (by decide)).1 (by decide)
    exact ⟨h.1.trans (by decide), h.2⟩
  · exact (c8_lazy_expiry
      [("acme", ⟨[("status", Json.str "found")], Json.str "found", Json.str "", 0, 100⟩)]
      50 "Acme " ⟨[("status", Json.str "found")], Json.str "found", Json.str "", 0, 100⟩
      (by decide)).2 (by decide)

/-! ## Claim C2 — the lead-tier decision table -/

/-- C2 counterexample: the spec's own branch-2 test record (valid
`contact_email`, non-empty `contact_name`, first gate passed, no
`auction_type`) classifies as `("semi", 100)`, not as the top tier — the
top tier `("full", 150)` additionally requires a non-empty
`auction_type`, which the claim's four-branch table omits. -/
theorem c2_counterexample :
    classify_lead_tier (mkLeadRecord "Gala" "3/5/2026" "https://x.org/gala" "" "A" "a@x.org") =
      ("semi", 100) ∧
    classify_lead_tier (mkLeadRecord "Gala" "3/5/2026" "https://x.org/gala" "silent" "A" "a@x.org") =
      ("full", 150) ∧
    (("semi", 100) : String × Nat) ≠ ("full", 150) := by decide

/-- C2 amended (proved): the classifier evaluates a FIVE-branch table
top-down: records lacking `event_title`, `event_date` or an
`http(s)`-prefixed `event_url` are `not_billable` at price 0 regardless
of other fields; otherwise `full` ($1.50) with `auction_type`,
`contact_name` and a valid `contact_email`; `partial` ($1.25) with
`auction_type` and a valid email but no name; `semi` ($1.00) with a
valid email but no `auction_type`; `bare` ($0.75) otherwise. -/
theorem c2_amended (title date url auction name email : String) :
    classify_lead_tier (mkLeadRecord title date url auction name email) =
      classifySpecAmended title date url auction name email := by
  have ht : dgetStr (mkLeadRecord title date url auction name email) "event_title" = title := rfl
  have hd : dgetStr (mkLeadRecord title date url auction name email) "event_date" = date := rfl
  have hu : has_valid_url (mkLeadRecord title date url auction name email) =
      (strStarts (pyStrip url) "http://" || strStarts (pyStrip url) "https://") := rfl
  have ha : dgetStr (mkLeadRecord title date url auction name email) "auction_type" = auction := rfl
  have hn : dgetStr (mkLeadRecord title date url auction name email) "contact_name" = name := rfl
  have he : dgetStr (mkLeadRecord title date url auction name email) "contact_email" = email := rfl
  simp only [classify_lead_tier, classifySpecAmended, ht, hd, hu, ha, hn, he,
    DOWNGRADE_GENERIC_EMAILS, Bool.false_and, Bool.false_eq_true, if_false]
  cases h1 : (pyStrip title).isEmpty <;>
    cases h2 : (pyStrip date).isEmpty <;>
      cases h3 : (strStarts (pyStrip url) "http://" || strStarts (pyStrip url) "https://") <;>
        cases h4 : (pyStrip auction).isEmpty <;>
          cases h5 : (pyStrip name).isEmpty <;>
            cases h6 : is_valid_email email <;>
              simp

/-! ## Claim C3 — failures become terminal error records -/

/-- The standardized error record carries status `"uncertain"`. -/
theorem error_result_status (nonprofit msg raw nowIso : String) :
    dget (error_result nonprofit msg raw nowIso) "status" (.str "") = .str "uncertain" := by
  by_cases h : raw = "" <;> simp [error_result, h, dget, jset, jlookup]

/-- C3 counterexample: a failing phase-1 call yields a record whose
status is `"uncertain"`, not `"error"` as the claim states
(`_error_result` hard-codes `status="uncertain"`). -/
theorem c3_counterexample :
    dget (research_nonprofit (envScanExc "boom") "acme.org").result "status" (.str "") =
      .str "uncertain" ∧
    dget (research_nonprofit (envScanExc "boom") "acme.org").result "status" (.str "") ≠
      .str "error" := by decide

/-- C3 amended (proved): whenever enrichment fails — a research call
raises in phase 1 or phase 2, or JSON extraction of a phase-1 or
phase-2 response fails — the pipeline returns the standardized terminal
record with `status = "uncertain"` and the human-readable summary
`"Error during research: …"` (with the fixed parse-failure message on
the extraction paths), and never lets the exception escape: all four
error branches return exactly that record. -/
theorem c3_amended :
    (∀ (env : PipelineEnv) (nonprofit msg : String),
        env.cached = none → env.scan = .error (.exc msg) →
        research_nonprofit env nonprofit =
          ⟨error_result nonprofit msg "" env.nowIso,
           if isRateLimitMsg msg then none else some (error_result nonprofit msg "" env.nowIso),
           1, false⟩ ∧
        dget (error_result nonprofit msg "" env.nowIso) "status" (.str "") = .str "uncertain" ∧
        dget (error_result nonprofit msg "" env.nowIso) "event_summary" (.str "") =
          .str ("Error during research: " ++ msg)) ∧
    (∀ (env : PipelineEnv) (nonprofit : String),
        env.cached = none → env.scan = .error .parse →
        research_nonprofit env nonprofit =
          ⟨error_result nonprofit "Failed to parse response as JSON" "" env.nowIso,
           some (error_result nonprofit "Failed to parse response as JSON" "" env.nowIso),
           1, false⟩ ∧
        dget (error_result nonprofit "Failed to parse response as JSON" "" env.nowIso)
            "status" (.str "") = .str "uncertain" ∧
        dget (error_result nonprofit "Failed to parse response as JSON" "" env.nowIso)
            "event_summary" (.str "") =
          .str ("Error during research: " ++ "Failed to parse response as JSON")) ∧
    (∀ (env : PipelineEnv) (nonprofit msg : String),
        env.deep = .error (.exc msg) →
        pipelineDeep env nonprofit =
          ⟨error_result nonprofit msg "" env.nowIso,
           if isRateLimitMsg msg then none else some (error_result nonprofit msg "" env.nowIso),
           2, true⟩ ∧
        dget (error_result nonprofit msg "" env.nowIso) "status" (.str "") = .str "uncertain" ∧
        dget (error_result nonprofit msg "" env.nowIso) "event_summary" (.str "") =
          .str ("Error during research: " ++ msg)) ∧
    (∀ (env : PipelineEnv) (nonprofit : String),
        env.deep = .error .parse →
        pipelineDeep env nonprofit =
          ⟨error_result nonprofit "Failed to parse response as JSON" "" env.nowIso,
           some (error_result nonprofit "Failed to parse response as JSON" "" env.nowIso),
           2, true⟩ ∧
        dget (error_result nonprofit "Failed to parse response as JSON" "" env.nowIso)
            "status" (.str "") = .str "uncertain" ∧
        dget (error_result nonprofit "Failed to parse response as JSON" "" env.nowIso)
            "event_summary" (.str "") =
          .str ("Error during research: " ++ "Failed to parse response as JSON")) := by
  refine ⟨?_, ?_, ?_, ?_⟩
  · intro env nonprofit msg hc hs
    refine ⟨?_, rfl, rfl⟩
    simp only [research_nonprofit, hc, hs, pipelineExcFail]
  · intro env nonprofit hc hs
    refine ⟨?_, rfl, rfl⟩
    simp only [research_nonprofit, hc, hs, pipelineParseFail]
  · intro env nonprofit msg hd
    refine ⟨?_, rfl, rfl⟩
    simp only [pipelineDeep, hd, pipelineExcFail]
  · intro env nonprofit hd
    refine ⟨?_, rfl, rfl⟩
    simp only [pipelineDeep, hd, pipelineParseFail]

/-- Witness for C3 at concrete environments: all four failure modes
(phase-1 raise, phase-1 parse failure, phase-2 raise, phase-2 parse
failure) at concrete inputs. -/
theorem c3_amended_witness :
    research_nonprofit (envScanExc "boom") "acme.org" =
      ⟨error_result "acme.org" "boom" "" "2026-02-01T00:00:00+00:00",
       some (error_result "acme.org" "boom" "" "2026-02-01T00:00:00+00:00"), 1, false⟩ ∧
    research_nonprofit envScanParse "acme.org" =
      ⟨error_result "acme.org" "Failed to parse response as JSON" ""
         "2026-02-01T00:00:00+00:00",
       some (error_result "acme.org" "Failed to parse response as JSON" ""
         "2026-02-01T00:00:00+00:00"), 1, false⟩ ∧
    pipelineDeep (envDeepExc "socket timeout") "acme.org" =
      ⟨error_result "acme.org" "socket timeout" "" "2026-02-01T00:00:00+00:00",
       some (error_result "acme.org" "socket timeout" "" "2026-02-01T00:00:00+00:00"),
       2, true⟩ ∧
    pipelineDeep envScanParse "acme.org" =
      ⟨error_result "acme.org" "Failed to parse response as JSON" ""
         "2026-02-01T00:00:00+00:00",
       some (error_result "acme.org" "Failed to parse response as JSON" ""
         "2026-02-01T00:00:00+00:00"), 2, true⟩ ∧
    dget (pipelineDeep (envDeepExc "socket timeout") "acme.org").result "status" (.str "") =
      .str "uncertain" :=
  ⟨((c3_amended.1 (envScanExc "boom") "acme.org" "boom" rfl rfl).1).trans (by decide),
   (c3_amended.2.1 envScanParse "acme.org" rfl rfl).1,
   ((c3_amended.2.2.1 (envDeepExc "socket timeout") "acme.org" "socket timeout" rfl).1).trans
     (by decide),
   (c3_amended.2.2.2 envScanParse "acme.org" rfl).1,
   by decide⟩

/-! ## Claim C4 — there is no retry/backoff in the research client -/

/-- C4 counterexample: with the very first call failing rate-limited
(message contains "429"), the pipeline issues exactly ONE call and the
identifier fails (standardized `uncertain` error record, not cached) —
there is no cooldown sleep, no shared base delay, and no retry up to any
ceiling; `_claude_call` performs a single request. -/
theorem c4_counterexample :
    (research_nonprofit (envScanExc "Error code: 429 - rate_limit_error") "acme.org").apiCalls
      = 1 ∧
    dget (research_nonprofit (envScanExc "Error code: 429 - rate_limit_error") "acme.org").result
      "status" (.str "") = .str "uncertain" ∧
    (research_nonprofit (envScanExc "Error code: 429 - rate_limit_error") "acme.org").cacheWrite
      = none := by decide

/-- C4 amended (proved): the research client issues exactly one request
per call and surfaces any exception unchanged — there is no retry loop,
no fixed cooldown, no adaptive shared delay and no retry ceiling; the
pipeline converts the first failure (rate-limit or transient alike) of an
identifier's call into that identifier's error record after exactly one
issued call. -/
theorem c4_amended :
    (∀ msg : String, claude_call (.error msg) = .error msg) ∧
    (∀ blocks : List ContentBlock,
        claude_call (.ok blocks) =
          .ok (String.intercalate "\n" (blocks.filterMap (fun b => b)))) ∧
    (∀ (env : PipelineEnv) (nonprofit msg : String),
        env.cached = none → env.scan = .error (.exc msg) →
        (research_nonprofit env nonprofit).apiCalls = 1 ∧
        (research_nonprofit env nonprofit).result = error_result nonprofit msg "" env.nowIso) := by
  refine ⟨fun _ => rfl, fun _ => rfl, ?_⟩
  intro env nonprofit msg hc hs
  constructor <;> simp only [research_nonprofit, hc, hs, pipelineExcFail]

/-- Witness for C4: the first rate-limited call fails the identifier
after one attempt. -/
theorem c4_amended_witness :
    claude_call (.error "Error code: 429") = .error "Error code: 429" ∧
    (research_nonprofit (envScanExc "Error code: 429") "x.org").apiCalls = 1 ∧
    (research_nonprofit (envScanExc "Error code: 429") "x.org").result =
      error_result "x.org" "Error code: 429" "" "2026-02-01T00:00:00+00:00" :=
  ⟨c4_amended.1 "Error code: 429",
   (c4_amended.2.2 (envScanExc "Error code: 429") "x.org" "Error code: 429" rfl rfl).1,
   (c4_amended.2.2 (envScanExc "Error code: 429") "x.org" "Error code: 429" rfl rfl).2⟩

/-! ## Claim C6 — rate-limit-induced errors are never cached -/

/-- C6 (confirmed): when enrichment fails with an exception whose message
contains `"429"` or `"RESOURCE_EXHAUSTED"`, no cache write happens for
the identifier (the store is untouched, so the next run retries it);
every other failing enrichment writes its error record to the cache.
Both the phase-1 and the phase-2 failure paths behave this way. -/
theorem c6_rate_limit_errors_not_cached :
    (∀ (env : PipelineEnv) (nonprofit msg : String),
        env.cached = none → env.scan = .error (.exc msg) →
        (isRateLimitMsg msg = true → (research_nonprofit env nonprofit).cacheWrite = none) ∧
        (isRateLimitMsg msg = false →
          (research_nonprofit env nonprofit).cacheWrite =
            some (error_result nonprofit msg "" env.nowIso))) ∧
    (∀ (env : PipelineEnv) (nonprofit msg : String),
        env.deep = .error (.exc msg) →
        (isRateLimitMsg msg = true → (pipelineDeep env nonprofit).cacheWrite = none) ∧
        (isRateLimitMsg msg = false →
          (pipelineDeep env nonprofit).cacheWrite =
            some (error_result nonprofit msg "" env.nowIso))) := by
  constructor
  · intro env nonprofit msg hc hs
    constructor <;> intro hrl <;> simp [research_nonprofit, hc, hs, pipelineExcFail, hrl]
  · intro env nonprofit msg hd
    constructor <;> intro hrl <;> simp [pipelineDeep, hd, pipelineExcFail, hrl]

/-- Witness for C6: a 429-messaged failure is not cached, an ordinary
timeout failure is. -/
theorem c6_rate_limit_errors_not_cached_witness :
    (research_nonprofit (envScanExc "Error code: 429 - overloaded") "x.org").cacheWrite = none ∧
    (research_nonprofit (envScanExc "socket timeout") "x.org").cacheWrite =
      some (error_result "x.org" "socket timeout" "" "2026-02-01T00:00:00+00:00") :=
  ⟨(c6_rate_limit_errors_not_cached.1 (envScanExc "Error code: 429 - overloaded") "x.org"
      "Error code: 429 - overloaded" rfl rfl).1 (by decide),
   (c6_rate_limit_errors_not_cached.1 (envScanExc "socket timeout") "x.org"
      "socket timeout" rfl rfl).2 (by decide)⟩

/-! ## Claim C7 — early-stop behaviour of the quick scan -/

/-- Appending a binding shadows older ones and leaves other keys alone. -/
theorem jlookup_append_single : ∀ (r : JRec) (k key : String) (v : Json),
    jlookup (r ++ [(k, v)]) key = if k = key then some v else jlookup r key
  | [], k, key, v => by simp [jlookup]
  | (ak, av) :: rest, k, key, v => by
      have ih := jlookup_append_single rest k key v
      simp only [List.cons_append, jlookup, List.append_eq]
      rw [ih]
      by_cases h : k = key
      · simp [h]
      · simp [h]

/-- `jlookup` after a dict assignment. -/
theorem jlookup_jset (r : JRec) (k key : String) (v : Json) :
    jlookup (jset r k v) key = if k = key then some v else jlookup r key :=
  jlookup_append_single r k key v

/-- The record built from a quick scan carries status `found`/`not_found`
according to `has_event`. -/
theorem quick_scan_to_full_status (scan : JRec) (np : String) :
    jlookup (quick_scan_to_full scan np) "status" =
      some (.str (if pyTruthy (dget scan "has_event" .null) then "found" else "not_found")) := by
  simp only [quick_scan_to_full]
  rw [jlookup_jset]
  simp

/-- Every branch of the deep phase marks a phase-2 call as issued. -/
theorem pipelineDeep_ranPhase2 (env : PipelineEnv) (np : String) :
    (pipelineDeep env np).ranPhase2 = true := by
  cases hd : env.deep with
  | error e =>
      cases e <;> simp [pipelineDeep, hd, pipelineParseFail, pipelineExcFail]
  | ok d =>
      simp only [pipelineDeep, hd]
      split_ifs <;> rfl

/-- C7 counterexample: a quick scan reporting `has_event=true` at
confidence 0.9 whose supporting evidence field `evidence_auction` is
empty (all other fields filled) STILL finalizes early as `found` with a
single call — the early stop does not check `evidence_auction`, so
"phase 2 is always run when a supporting evidence field is empty" fails
as stated. -/
theorem c7_counterexample :
    pyTruthy (dget scanNoEvidenceAuction "has_event" .null) = true ∧
    dget scanNoEvidenceAuction "confidence" (.num 0) = .num (mkRat 9 10) ∧
    pyStrip (dgetStr scanNoEvidenceAuction "evidence_auction") = "" ∧
    (research_nonprofit envC7 "acme.org").ranPhase2 = false ∧
    (research_nonprofit envC7 "acme.org").apiCalls = 1 ∧
    dget (research_nonprofit envC7 "acme.org").result "status" (.str "") = .str "found" := by
  decide

/-- C7 amended (proved): (i) a quick scan reporting no event with
confidence ≥ 0.80 finalizes the identifier as `not_found` with exactly
one call and no phase-2 call; (ii) a quick scan reporting an event does
NOT finalize early — a phase-2 call is always issued — whenever the
scan's record misses the top (`full`) tier or any of the five checked
supporting fields (`evidence_date`, `contact_role`,
`organization_address`, `organization_phone_maps`,
`contact_source_url`) is empty.  (`evidence_auction` is not checked; see
the counterexample.) -/
theorem c7_amended :
    (∀ (env : PipelineEnv) (nonprofit : String) (scan : JRec) (c : ℚ),
        env.cached = none → env.scan = .ok scan →
        pyTruthy (dget scan "has_event" .null) = false →
        dget scan "confidence" (.num 0) = .num c → mkRat 4 5 ≤ c →
        (research_nonprofit env nonprofit).ranPhase2 = false ∧
        (research_nonprofit env nonprofit).apiCalls = 1 ∧
        dget (research_nonprofit env nonprofit).result "status" (.str "") = .str "not_found") ∧
    (∀ (env : PipelineEnv) (nonprofit : String) (scan : JRec),
        env.cached = none → env.scan = .ok scan →
        pyTruthy (dget scan "has_event" .null) = true →
        ((classify_lead_tier (quick_scan_to_full scan nonprofit)).1 ≠ "full" ∨
         pyStrip (dgetStr (quick_scan_to_full scan nonprofit) "evidence_date") = "" ∨
         pyStrip (dgetStr (quick_scan_to_full scan nonprofit) "contact_role") = "" ∨
         pyStrip (dgetStr (quick_scan_to_full scan nonprofit) "organization_address") = "" ∨
         pyStrip (dgetStr (quick_scan_to_full scan nonprofit) "organization_phone_maps") = "" ∨
         pyStrip (dgetStr (quick_scan_to_full scan nonprofit) "contact_source_url") = "") →
        (research_nonprofit env nonprofit).ranPhase2 = true) := by
  constructor
  · intro env nonprofit scan c hc hs he hcq hge
    have hcond : (!pyTruthy (dget scan "has_event" Json.null) &&
        decide (asNum (dget scan "confidence" (Json.num 0)) ≥ mkRat 4 5)) = true := by
      rw [he, hcq]
      simp [asNum]
      exact hge
    simp only [research_nonprofit, hc, hs, pipelineAfterScan, hcond, if_true]
    refine ⟨trivial, trivial, ?_⟩
    simp only [dget, jset, jlookup_append_single]
    rw [quick_scan_to_full_status, he]
    simp
  · intro env nonprofit scan hc hs he hdisj
    have hq : quick_scan_all_filled scan nonprofit = false := by
      rcases hdisj with h | h | h | h | h | h
      · have hA : ((classify_lead_tier (quick_scan_to_full scan nonprofit)).1 == "full")
            = false := beq_eq_false_iff_ne.mpr h
        simp [quick_scan_all_filled, hA]
      · have hx : (pyStrip (dgetStr (quick_scan_to_full scan nonprofit)
            "evidence_date")).isEmpty = true := by rw [h]; rfl
        simp [quick_scan_all_filled, hx]
      · have hx : (pyStrip (dgetStr (quick_scan_to_full scan nonprofit)
            "contact_role")).isEmpty = true := by rw [h]; rfl
        simp [quick_scan_all_filled, hx]
      · have hx : (pyStrip (dgetStr (quick_scan_to_full scan nonprofit)
            "organization_address")).isEmpty = true := by rw [h]; rfl
        simp [quick_scan_all_filled, hx]
      · have hx : (pyStrip (dgetStr (quick_scan_to_full scan nonprofit)
            "organization_phone_maps")).isEmpty = true := by rw [h]; rfl
        simp [quick_scan_all_filled, hx]
      · have hx : (pyStrip (dgetStr (quick_scan_to_full scan nonprofit)
            "contact_source_url")).isEmpty = true := by rw [h]; rfl
        simp [quick_scan_all_filled, hx]
    have hcond1 : (!pyTruthy (dget scan "has_event" Json.null) &&
        decide (asNum (dget scan "confidence" (Json.num 0)) ≥ mkRat 4 5)) = false := by
      rw [he]
      simp
    simp only [research_nonprofit, hc, hs, pipelineAfterScan, hcond1, hq, Bool.and_false]
    simp [pipelineDeep_ranPhase2]

/-- Witness for C7: a concrete quick negative stops after one call as
`not_found`; a concrete positive scan with an empty `contact_email` goes
on to phase 2. -/
theorem c7_amended_witness :
    ((research_nonprofit envQuickNeg "acme.org").ranPhase2 = false ∧
     (research_nonprofit envQuickNeg "acme.org").apiCalls = 1 ∧
     dget (research_nonprofit envQuickNeg "acme.org").result "status" (.str "") =
       .str "not_found") ∧
    (research_nonprofit envQuickPosIncomplete "acme.org").ranPhase2 = true :=
  ⟨c7_amended.1 envQuickNeg "acme.org" scanQuickNeg (mkRat 9 10) rfl rfl (by decide)
      (by decide) (by decide),
   c7_amended.2 envQuickPosIncomplete "acme.org" scanNoEmail rfl rfl (by decide)
      (Or.inl (by decide))⟩

/-! ## Claim C10 — the record invariant is not enforced by the pipeline -/

/-- C10 counterexample: a deep-research response that is billable with no
missing billable field but no `contact_name` key at all is returned by
the pipeline exactly as extracted — the returned record misses the fixed
string field `contact_name` (and `confidence_score`), so the record
invariant fails. -/
theorem c10_counterexample :
    jlookup (research_nonprofit envC10 "acme.org").result "contact_name" = none ∧
    jlookup (research_nonprofit envC10 "acme.org").result "confidence_score" = none ∧
    ¬ RecordInvariant (research_nonprofit envC10 "acme.org").result := by
  have h : jlookup (research_nonprofit envC10 "acme.org").result "contact_name" = none := by
    decide
  have h2 : jlookup (research_nonprofit envC10 "acme.org").result "confidence_score" = none := by
    decide
  refine ⟨h, h2, fun hinv => ?_⟩
  obtain ⟨-, -, h3⟩ := hinv
  obtain ⟨s, hs⟩ := h3 "contact_name" (by decide)
  rw [h] at hs
  cases hs

/-- The standardized error record satisfies the record invariant. -/
theorem error_result_invariant (nonprofit msg raw nowIso : String) :
    RecordInvariant (error_result nonprofit msg raw nowIso) := by
  have base : RecordInvariant (error_result nonprofit msg "" nowIso) := by
    refine ⟨⟨"uncertain", rfl, by decide⟩, ⟨0, rfl, by norm_num⟩, ?_⟩
    intro k hk
    fin_cases hk <;> exact ⟨_, rfl⟩
  by_cases h : raw = ""
  · rw [h]
    exact base
  · have heq : error_result nonprofit msg raw nowIso =
        jset (error_result nonprofit msg "" nowIso) "_raw_response" (.str raw) := by
      simp [error_result, h]
    rw [heq]
    obtain ⟨⟨s, hs1, hs2⟩, ⟨q, hq1, hq2⟩, h3⟩ := base
    refine ⟨⟨s, ?_, hs2⟩, ⟨q, ?_, hq2⟩, ?_⟩
    · rw [jlookup_jset]
      simp [hs1]
    · rw [jlookup_jset]
      simp [hq1]
    · intro k hk
      obtain ⟨s', hs'⟩ := h3 k hk
      refine ⟨s', ?_⟩
      rw [jlookup_jset]
      have hne : "_raw_response" ≠ k := by fin_cases hk <;> decide
      simp [hne, hs']

/-- C10 amended (proved): the pipeline enforces the record invariant only
on its error path — the standardized error record always satisfies it
(non-empty status, confidence 0 in range, every fixed string field
present as a string) — while deep-research-path records are returned as
extracted, with no validation (see the counterexample). -/
theorem c10_amended :
    (∀ (nonprofit msg raw nowIso : String),
        RecordInvariant (error_result nonprofit msg raw nowIso)) ∧
    (∀ (env : PipelineEnv) (nonprofit msg : String),
        env.cached = none → env.scan = .error (.exc msg) →
        RecordInvariant (research_nonprofit env nonprofit).result) ∧
    (∀ (env : PipelineEnv) (nonprofit : String),
        env.cached = none → env.scan = .error .parse →
        RecordInvariant (research_nonprofit env nonprofit).result) := by
  refine ⟨error_result_invariant, ?_, ?_⟩
  · intro env nonprofit msg hc hs
    simp only [research_nonprofit, hc, hs, pipelineExcFail]
    exact error_result_invariant _ _ _ _
  · intro env nonprofit hc hs
    simp only [research_nonprofit, hc, hs, pipelineParseFail]
    exact error_result_invariant _ _ _ _

/-- Witness for C10: the invariant holds on a concrete error-path run. -/
theorem c10_amended_witness :
    RecordInvariant (research_nonprofit (envScanExc "boom10") "acme.org").result ∧
    RecordInvariant (research_nonprofit envScanParse "acme.org").result :=
  ⟨c10_amended.2.1 (envScanExc "boom10") "acme.org" "boom10" rfl rfl,
   c10_amended.2.2 envScanParse "acme.org" rfl rfl⟩

/-! ## Claim C5 — order preservation in the orchestrator -/

theorem mapM_map_comp (g : β → γ) (f : γ → Option δ) :
    ∀ l : List β, (l.map g).mapM f = l.mapM (fun b => f (g b))
  | [] => rfl
  | b :: t => by
      rw [List.map_cons, List.mapM_cons, List.mapM_cons, mapM_map_comp g f t]

theorem mapM_range_some {α : Type _} {f : Nat → Option α} :
    ∀ (l : List α), (∀ (i : Nat) (hi : i < l.length), f i = some l[i]) →
    (List.range l.length).mapM f = some l
  | [], _ => rfl
  | a :: t, hf => by
      rw [List.length_cons, List.range_succ_eq_map, List.mapM_cons, mapM_map_comp]
      have h0 : f 0 = some a := hf 0 (by simp)
      have ht : (List.range t.length).mapM (fun b => f (Nat.succ b)) = some t :=
        @mapM_range_some _ (fun i => f (Nat.succ i)) t
          (fun i hi => by simpa using hf (i + 1) (by simpa using Nat.succ_lt_succ hi))
      rw [h0, ht]
      rfl

theorem gatherEvents_find : ∀ (order : List Nat) (results : List α) (i : Nat) (r : α),
    results.get? i = some r → i ∈ order →
    (gatherEvents results order).find? (fun e => e.1 == i) = some (i, r)
  | [], _, _, _, _, hmem => absurd hmem (List.not_mem_nil _)
  | j :: rest, results, i, r, hr, hmem => by
      simp only [gatherEvents, List.filterMap_cons]
      cases hj : results.get? j with
      | none =>
          rcases List.mem_cons.mp hmem with h | h
          · subst h
            rw [hr] at hj
            cases hj
          · exact gatherEvents_find rest results i r hr h
      | some rj =>
          by_cases hij : j = i
          · subst hij
            rw [hr] at hj
            injection hj with hj
            subst hj
            simp [List.find?_cons]
          · rcases List.mem_cons.mp hmem with h | h
            · exact absurd h.symm hij
            · simp only [Option.map_some']
              rw [List.find?_cons_of_neg]
              · exact gatherEvents_find rest results i r hr h
              · simp [hij]

theorem gatherSim_perm (results : List α) (order : List Nat)
    (h : order.Perm (List.range results.length)) :
    gatherSim results order = some results := by
  unfold gatherSim
  apply mapM_range_some
  intro i hi
  have hmem : i ∈ order := h.mem_iff.mpr (List.mem_range.mpr hi)
  have hget : results.get? i = some results[i] := by
    rw [List.get?_eq_getElem?]
    exact List.getElem?_eq_getElem hi
  rw [gatherEvents_find order results i results[i] hget hmem]
  rfl

theorem seqOpt_map_some {f : β → Option γ} {g : β → γ} :
    ∀ l : List β, (∀ b ∈ l, f b = some (g b)) → seqOpt (l.map f) = some (l.map g)
  | [], _ => rfl
  | b :: t, hf => by
      rw [List.map_cons, List.map_cons]
      simp only [seqOpt]
      rw [hf b (by simp), seqOpt_map_some t (fun x hx => hf x (by simp [hx]))]
      rfl

theorem zip_process_some (research : α → β) :
    ∀ (g : List (List α)) (tords : List (List Nat)),
    List.Forall₂ (fun (batch : List α) ord => ord.Perm (List.range batch.length)) g tords →
    seqOpt (List.zipWith (fun batch ord => process_batch research batch ord) g tords) =
      some (g.map (fun b => b.map research)) := by
  intro g tords hf
  induction hf with
  | nil => rfl
  | @cons b o g2 t2 hbo htail ih =>
      simp only [List.zipWith_cons_cons, List.map_cons, seqOpt]
      have hb : process_batch research b o = some (b.map research) := by
        unfold process_batch
        apply gatherSim_perm
        simpa using hbo
      rw [hb, ih]
      rfl

theorem runGroups_ok (research : α → β) :
    ∀ (groups : List (List (List α))) (sched : List SchedGroup),
    SchedOK groups sched →
    runGroups research groups sched =
      some ((groups.map (fun g => (g.map (fun b => b.map research)).flatten)).flatten) := by
  intro groups sched h
  induction h with
  | nil => rfl
  | @cons g sg groups2 sched2 hgsg htail ih =>
      obtain ⟨hbatch, htasks⟩ := hgsg
      have hlen : g.length = sg.taskOrds.length := htasks.length_eq
      have hinner := zip_process_some research g sg.taskOrds htasks
      have houter : gatherSim (g.map (fun b => b.map research)) sg.batchOrd =
          some (g.map (fun b => b.map research)) := by
        apply gatherSim_perm
        simpa using hbatch
      simp [runGroups, hinner, hlen, houter, ih]

theorem chunkListF_flatten (n : Nat) (hn : n ≠ 0) :
    ∀ (fuel : Nat) (xs : List α), xs.length < fuel → (chunkListF n fuel xs).flatten = xs
  | 0, xs, h => by omega
  | fuel + 1, [], _ => rfl
  | fuel + 1, x :: rest, h => by
      simp only [chunkListF, if_neg hn]
      rw [List.flatten_cons,
        chunkListF_flatten n hn fuel ((x :: rest).drop n)
          (by simp only [List.length_drop, List.length_cons] at h ⊢; omega)]
      exact List.take_append_drop n (x :: rest)

theorem chunkList_flatten (n : Nat) (hn : n ≠ 0) (xs : List α) :
    (chunkList n xs).flatten = xs :=
  chunkListF_flatten n hn _ xs (by omega)

theorem chunkListF_map (n : Nat) (f : α → β) :
    ∀ (fuel : Nat) (xs : List α),
    (chunkListF n fuel xs).map (fun c => c.map f) = chunkListF n fuel (xs.map f)
  | 0, xs => by cases xs <;> rfl
  | fuel + 1, [] => rfl
  | fuel + 1, x :: rest => by
      by_cases hn : n = 0
      · simp [chunkListF, hn]
      · simp only [chunkListF, if_neg hn, List.map_cons]
        congr 1
        · rw [← List.map_cons, List.map_take]
        · rw [← List.map_cons, ← List.map_drop, ← chunkListF_map]

theorem chunkList_map (n : Nat) (f : α → β) (xs : List α) :
    (chunkList n xs).map (fun c => c.map f) = chunkList n (xs.map f) := by
  unfold chunkList
  rw [chunkListF_map, List.length_map]

theorem flatten_map_flatten (L : List (List (List α))) :
    (L.map List.flatten).flatten = L.flatten.flatten := by
  induction L with
  | nil => rfl
  | cons g t ih => simp [List.flatten_cons, List.flatten_append, ih]

/-- C5 (confirmed): for every input list and any completion schedule in
which every gathered task eventually finishes, the orchestrator's run
returns exactly the per-identifier enrichment results in input order
(after the `MAX_NONPROFITS` truncation): the record at index `i` is the
enrichment of the identifier at index `i`, regardless of the relative
completion times encoded in the schedule. -/
theorem c5_order_preservation (research : α → β) (nonprofits : List α)
    (sched : List SchedGroup) (h : SchedOK (groupsOf nonprofits) sched) :
    runOrchestrator research nonprofits sched =
      some ((nonprofits.take MAX_NONPROFITS).map research) ∧
    ∀ (res : List β), runOrchestrator research nonprofits sched = some res →
      res.length = (nonprofits.take MAX_NONPROFITS).length ∧
      ∀ (i : Nat) (h1 : i < res.length) (h2 : i < nonprofits.length),
        res[i] = research nonprofits[i] := by
  have hmain : runOrchestrator research nonprofits sched =
      some ((nonprofits.take MAX_NONPROFITS).map research) := by
    rw [runOrchestrator, runGroups_ok research _ _ h]
    congr 1
    calc ((groupsOf nonprofits).map fun g => (g.map fun b => b.map research).flatten).flatten
        = (((groupsOf nonprofits).map fun g => g.map fun b => b.map research).map
            List.flatten).flatten := by
          rw [List.map_map]
          rfl
      _ = ((chunkList MAX_PARALLEL_BATCHES (chunkList BATCH_SIZE
            ((nonprofits.take MAX_NONPROFITS).map research))).map List.flatten).flatten := by
          rw [groupsOf, batchesOf, chunkList_map, chunkList_map]
      _ = (chunkList MAX_PARALLEL_BATCHES (chunkList BATCH_SIZE
            ((nonprofits.take MAX_NONPROFITS).map research))).flatten.flatten :=
          flatten_map_flatten _
      _ = (chunkList BATCH_SIZE ((nonprofits.take MAX_NONPROFITS).map research)).flatten := by
          rw [chunkList_flatten MAX_PARALLEL_BATCHES (by decide)]
      _ = (nonprofits.take MAX_NONPROFITS).map research :=
          chunkList_flatten BATCH_SIZE (by decide) _
  refine ⟨hmain, ?_⟩
  intro res hres
  rw [hmain] at hres
  injection hres with hres
  subst hres
  constructor
  · simp
  · intro i h1 h2
    rw [List.getElem_map, List.getElem_take _]

/-- Witness for C5: three identifiers on one batch with completion order
`A, C, B` (B slowest) still yield results in input order. -/
theorem c5_witness :
    SchedOK (groupsOf ["A", "B", "C"]) [⟨[[0, 2, 1]], [0]⟩] ∧
    runOrchestrator (fun s => s ++ "!") ["A", "B", "C"] [⟨[[0, 2, 1]], [0]⟩] =
      some ["A!", "B!", "C!"] := by
  refine ⟨by decide, ?_⟩
  rw [(c5_order_preservation (fun s => s ++ "!") ["A", "B", "C"] [⟨[[0, 2, 1]], [0]⟩]
    (by decide)).1]
  rfl

/-! ## Claim C9 — robustness of `extract_json` -/

end EventPro
